import Mathlib

set_option autoImplicit false

/-!
Verification development for the agent execution backend.

The definitions below are a shallow embedding of the core source files
(app/utils/security.py, app/executor/context.py, app/executor/container.py,
app/executor/worker.py).  Pure functions become Lean functions; code that
touches the filesystem, network or process machinery becomes a function of
an explicit environment value describing what those collaborators do, and
code that can raise a Python exception returns an Except value.
-/

/-- A Python exception escaping a call. -/
inductive PyExc
  | keyError (key : String)
  | other (msg : String)
deriving DecidableEq, Repr

/-- The message text of a caught exception. -/
def pyExcMsg : PyExc → String
  | PyExc.keyError k => k
  | PyExc.other m => m

/- ---------------------------------------------------------------------
   Embedding of app/utils/security.py
   --------------------------------------------------------------------- -/

/-- Denylist of modules, from RESTRICTED_MODULES in security.py. -/
def RESTRICTED_MODULES : List String :=
  ["subprocess", "os.system", "os.spawn", "os.popen", "pty",
   "shutil",
   "socket",
   "ctypes", "cffi",
   "exec", "eval", "compile",
   "pickle", "shelve", "marshal",
   "multiprocessing.Process", "threading.Thread",
   "importlib", "imp", "__import__"]

/-- Denylist of operation names, from RESTRICTED_OPERATIONS in security.py. -/
def RESTRICTED_OPERATIONS : List String :=
  ["eval", "exec", "compile", "globals", "__import__",
   "open",
   "write", "chmod", "chown", "link", "symlink", "unlink",
   "system", "spawn", "popen", "run", "call", "check_call", "check_output"]

/-- Denylist of packages, from restricted_packages in validate_requirements. -/
def restricted_packages : List String :=
  ["cryptography", "pycrypto", "pyOpenSSL",
   "django", "flask", "tornado", "fastapi",
   "tensorflow", "torch", "pytorch",
   "boto3", "google-cloud", "azure",
   "ansible", "fabric", "paramiko",
   "scrapy", "selenium"]

/-- The Python AST nodes that check_imports and check_operations inspect
while walking a parsed file; every other node kind is ignored by both
functions, so it is collapsed into the constructor other.  A parsed file
is the list of its nodes in ast.walk order. -/
inductive AstNode
  | importStmt (line : Nat) (names : List String)
  | importFrom (line : Nat) (module : Option String) (names : List String)
  | callName (line : Nat) (func : String)
  | callAttr (line : Nat) (obj : Option String) (attr : String)
  | other
deriving DecidableEq, Repr

/-- One entry of the per-file issue lists built in security.py.  Fields
that a given issue kind does not set are none. -/
structure Issue where
  type : String
  line : Option Nat
  module : Option String
  operation : Option String
  package : Option String
  message : String
deriving DecidableEq, Repr

/-- str.startswith, computed on the character lists (the Substring
machinery behind the library String.startsWith does not evaluate under
kernel reduction). -/
def pyStartsWith (s p : String) : Bool :=
  p.data.isPrefixOf s.data

/-- str.strip: whitespace removed from both ends. -/
def pyStrip (s : String) : String :=
  String.mk
    (((s.data.dropWhile Char.isWhitespace).reverse.dropWhile
        Char.isWhitespace).reverse)

/-- Lowercasing of one ascii character. -/
def asciiLower (c : Char) : Char :=
  if 65 ≤ c.toNat ∧ c.toNat ≤ 90 then Char.ofNat (c.toNat + 32) else c

/-- str.lower over the characters (package names are ascii). -/
def pyLower (s : String) : String :=
  String.mk (s.data.map asciiLower)

/-- The membership test used on module names by check_imports:
module in RESTRICTED_MODULES or any(module.startswith(m + dot)). -/
def isRestrictedModule (module : String) : Bool :=
  RESTRICTED_MODULES.contains module
    || RESTRICTED_MODULES.any (fun m => pyStartsWith module (m ++ "."))

/-- Issue for a restricted module import. -/
def mkImportIssue (line : Nat) (module : String) : Issue :=
  { type := "restricted_import", line := some line, module := some module,
    operation := none, package := none,
    message := "Restricted module import: " ++ module }

/-- Issue for a from-import of a restricted function name. -/
def mkFromFuncIssue (line : Nat) (module name : String) : Issue :=
  { type := "restricted_import", line := some line,
    module := some (module ++ "." ++ name),
    operation := none, package := none,
    message := "Restricted function import: " ++ module ++ "." ++ name }

/-- Issues contributed by the alias list of one ast.Import node. -/
def importNameIssues (line : Nat) : List String → List Issue
  | [] => []
  | m :: rest =>
      (if isRestrictedModule m then [mkImportIssue line m] else [])
        ++ importNameIssues line rest

/-- Issues contributed by the alias list of one ast.ImportFrom node. -/
def fromNameIssues (line : Nat) (module : String) : List String → List Issue
  | [] => []
  | n :: rest =>
      (if RESTRICTED_OPERATIONS.contains n then [mkFromFuncIssue line module n] else [])
        ++ fromNameIssues line module rest

/-- Issues contributed by a single node inside check_imports.  An
ast.ImportFrom whose module is None (the bare relative form, as in
from dot import name) fails the membership test harmlessly but then
raises AttributeError from None.startswith inside the any(...) call;
the exception aborts the whole walk. -/
def importIssuesOf : AstNode → Except PyExc (List Issue)
  | AstNode.importStmt line names => Except.ok (importNameIssues line names)
  | AstNode.importFrom line module names =>
      match module with
      | none =>
          Except.error (PyExc.other
            ("AttributeError: NoneType object has no attribute startswith"))
      | some m =>
          Except.ok
            ((if isRestrictedModule m then [mkImportIssue line m] else [])
              ++ fromNameIssues line m names)
  | _ => Except.ok []

/-- check_imports from security.py: walk the nodes and collect import
issues; a raised AttributeError discards the issues collected so far
and propagates to the caller. -/
def check_imports : List AstNode → Except PyExc (List Issue)
  | [] => Except.ok []
  | n :: rest =>
      match importIssuesOf n with
      | Except.error e => Except.error e
      | Except.ok is =>
          match check_imports rest with
          | Except.error e => Except.error e
          | Except.ok is2 => Except.ok (is ++ is2)

/-- Issue for a call to a restricted bare name. -/
def mkCallNameIssue (line : Nat) (f : String) : Issue :=
  { type := "restricted_operation", line := some line, module := none,
    operation := some f, package := none,
    message := "Call to restricted function: " ++ f }

/-- Issue for a call to a restricted attribute. -/
def mkCallAttrIssue (line : Nat) (obj : Option String) (attr : String) : Issue :=
  let full := match obj with
    | some o => o ++ "." ++ attr
    | none => attr
  { type := "restricted_operation", line := some line, module := none,
    operation := some full, package := none,
    message := "Call to restricted method: " ++ full }

/-- Issues contributed by a single node inside check_operations. -/
def operIssuesOf : AstNode → List Issue
  | AstNode.callName line f =>
      if RESTRICTED_OPERATIONS.contains f then [mkCallNameIssue line f] else []
  | AstNode.callAttr line obj attr =>
      if RESTRICTED_OPERATIONS.contains attr then [mkCallAttrIssue line obj attr] else []
  | _ => []

/-- check_operations from security.py. -/
def check_operations : List AstNode → List Issue
  | [] => []
  | n :: rest => operIssuesOf n ++ check_operations rest

/-- Outcome of ast.parse on one source file: either the walked node list,
or a SyntaxError with its line and message. -/
inductive ParseResult
  | ok (nodes : List AstNode)
  | syntaxError (line : Nat) (msg : String)
deriving DecidableEq, Repr

/-- The file_error issue appended by the outer except clause of
validate_python_file when the scan itself raises. -/
def mkFileErrorIssue (e : PyExc) : Issue :=
  { type := "file_error", line := none, module := none,
    operation := none, package := none,
    message := "Error processing file: " ++ pyExcMsg e }

/-- validate_python_file from security.py, on the parse outcome of the
file (reading the file is modelled as succeeding).  A SyntaxError gives
the single syntax_error issue; an exception escaping check_imports (the
None-module from-import) skips check_operations and is converted by the
outer except clause into a single file_error issue. -/
def validate_python_file : ParseResult → List Issue
  | ParseResult.ok nodes =>
      (match check_imports nodes with
       | Except.error e => [mkFileErrorIssue e]
       | Except.ok import_issues => import_issues ++ check_operations nodes)
  | ParseResult.syntaxError line msg =>
      [{ type := "syntax_error", line := some line, module := none,
         operation := none, package := none,
         message := "Syntax error: " ++ msg }]

/-- The characters re.split splits on when stripping version specifiers. -/
def isVersionChar (c : Char) : Bool :=
  c = '=' || c = '<' || c = '>' || c = '!' || c = '~'

/-- Package name extracted from one stripped requirements line:
re.split on version characters, first piece, stripped and lowered. -/
def pkgName (line : String) : String :=
  pyLower (pyStrip (String.mk (line.data.takeWhile (fun c => !(isVersionChar c)))))

/-- Issue for a restricted package. -/
def mkPkgIssue (line : Nat) (package : String) : Issue :=
  { type := "restricted_package", line := some line, module := none,
    operation := none, package := some package,
    message := "Restricted package in requirements: " ++ package }

/-- The loop body of validate_requirements, carrying the enumerate index. -/
def validate_requirements_from (i : Nat) : List String → List Issue
  | [] => []
  | raw :: rest =>
      let line := pyStrip raw
      (if line = "" || pyStartsWith line ("#") then []
       else if restricted_packages.contains (pkgName line) then
         [mkPkgIssue (i + 1) (pkgName line)]
       else [])
        ++ validate_requirements_from (i + 1) rest

/-- validate_requirements from security.py, on the lines of the manifest. -/
def validate_requirements (lines : List String) : List Issue :=
  validate_requirements_from 0 lines

/-- A code bundle as the validator sees it: the Python files found by the
os.walk scan, in walk order, as relative path plus parse outcome, and the
lines of requirements.txt when that file is present. -/
structure Bundle where
  pyFiles : List (String × ParseResult)
  requirements : Option (List String)
deriving DecidableEq, Repr

/-- One entry of the aggregated issue list: a file with its issues. -/
structure FileIssues where
  file : String
  issues : List Issue
deriving DecidableEq, Repr

/-- The dictionary returned by validate_agent_code. -/
structure ValidationResult where
  valid : Bool
  issues : Option (List FileIssues)
  reason : Option String
deriving DecidableEq, Repr

/-- The per-file collection loop of validate_agent_code: a file joins the
aggregate list only when its own issue list is nonempty. -/
def collectFileIssues : List (String × ParseResult) → List FileIssues
  | [] => []
  | (name, pr) :: rest =>
      let is := validate_python_file pr
      (if is.isEmpty then [] else [{ file := name, issues := is }])
        ++ collectFileIssues rest

/-- The requirements.txt part of validate_agent_code: when the manifest
is present its issues join the aggregate list, again only when
nonempty. -/
def reqFileIssues : Option (List String) → List FileIssues
  | none => []
  | some lines =>
      let is := validate_requirements lines
      if is.isEmpty then [] else [{ file := "requirements.txt", issues := is }]

/-- validate_agent_code from security.py. -/
def validate_agent_code (b : Bundle) : ValidationResult :=
  let all := collectFileIssues b.pyFiles ++ reqFileIssues b.requirements
  { valid := all.isEmpty,
    issues := if all.isEmpty then none else some all,
    reason := if all.isEmpty then none
              else some ("Security concerns detected in agent code") }

/-- The metadata dictionary paired with the Bool by verify_api_key:
either key metadata or an error message. -/
inductive VerifyMeta
  | meta (user_id : String) (scopes : List String) (expires_at : String)
  | err (msg : String)
deriving DecidableEq, Repr

/-- verify_api_key from security.py.  The call to time.time() is passed
in as current_time; int(expiry) failing to parse raises ValueError, which
the except clause turns into the generic invalid-key error, so a
non-numeric expiry maps to that same result here. -/
def verify_api_key (api_key : String) (required_scope : String)
    (current_time : Nat) : Bool × VerifyMeta :=
  if api_key = "" then
    (false, VerifyMeta.err ("API key is required"))
  else if api_key = "test_key" then
    (true, VerifyMeta.meta ("test_user") (["execute", "submit", "admin"])
      ("2099-12-31T23:59:59Z"))
  else
    match api_key.splitOn (":") with
    | [user_id, scopes_str, expiry, _signature] =>
        let scopes := scopes_str.splitOn (",")
        match expiry.toNat? with
        | none => (false, VerifyMeta.err ("Invalid API key"))
        | some e =>
            if e < current_time then
              (false, VerifyMeta.err ("API key has expired"))
            else if scopes.contains required_scope = false then
              (false, VerifyMeta.err ("API key lacks required scope: " ++ required_scope))
            else
              (true, VerifyMeta.meta user_id scopes expiry)
    | _ => (false, VerifyMeta.err ("Invalid API key format"))

/- ---------------------------------------------------------------------
   Embedding of app/executor/context.py
   --------------------------------------------------------------------- -/

/-- A message dictionary as received in chat_history or context_data:
each key may be absent. -/
structure MsgDict where
  role : Option String
  content : Option String
  message_id : Option String
  timestamp : Option Nat
deriving DecidableEq, Repr

/-- A constructed Message object. -/
structure Message where
  role : String
  content : String
  message_id : String
  timestamp : Nat
deriving DecidableEq, Repr

/-- Message.from_dict: subscripting a missing role or content key raises
KeyError; message_id falls back to a fresh uuid (also when present but
empty, through the or operator); timestamp falls back to the current
time.  The uuid and clock reads are passed in as fresh and now. -/
def Message.from_dict (d : MsgDict) (fresh : String) (now : Nat) :
    Except PyExc Message :=
  match d.role with
  | none => Except.error (PyExc.keyError ("role"))
  | some r =>
      match d.content with
      | none => Except.error (PyExc.keyError ("content"))
      | some c =>
          let mid := match d.message_id with
            | none => fresh
            | some s => if s = "" then fresh else s
          let ts := match d.timestamp with
            | none => now
            | some t => t
          Except.ok { role := r, content := c, message_id := mid, timestamp := ts }

/-- The list comprehension mapping Message.from_dict over a message list:
the first exception propagates. -/
def mapFromDict (now : Nat) : List MsgDict → Except PyExc (List Message)
  | [] => Except.ok []
  | d :: rest =>
      match Message.from_dict d ("generated-uuid") now with
      | Except.error e => Except.error e
      | Except.ok m =>
          match mapFromDict now rest with
          | Except.error e => Except.error e
          | Except.ok ms => Except.ok (m :: ms)

/-- The identity fields of one AgentContext. -/
structure CtxInfo where
  execution_id : String
  agent_id : String
  user_id : String
deriving DecidableEq, Repr

/-- One entry of the _execution_results event log.  The message event
carries the role and content of the emitted message; the invocation and
generation events carry the request and the decoded response (held
opaquely as a string). -/
inductive CtxEvent
  | message (role content : String)
  | agent_invocation (agent_id input result : String)
  | llm_call (prompt model result : String)
deriving DecidableEq, Repr

/-- The mutable per-run accumulator of an AgentContext: the event log and
the generation-call counter. -/
structure CtxState where
  execution_results : List CtxEvent
  llm_calls : Nat
deriving DecidableEq, Repr

/-- The state of a freshly constructed AgentContext. -/
def initCtxState : CtxState :=
  { execution_results := [], llm_calls := 0 }

/-- Outcome of one outbound HTTP call made by the context: the decoded
response body on success, or the message of the raised exception. -/
inductive CallOutcome
  | success (value : String)
  | failure (msg : String)
deriving DecidableEq, Repr

/-- send_message from context.py: the message event is appended to the
log first; the relay POST happens inside a try whose except clause only
logs, so the resulting state does not depend on the relay outcome. -/
def send_message (s : CtxState) (content role : String)
    (relay : CallOutcome) : CtxState :=
  let _ := relay
  { s with execution_results :=
      s.execution_results ++ [CtxEvent.message role content] }

/-- The payload posted to the invoke endpoint by invoke_agent. -/
structure InvokePayload where
  parent_execution_id : String
  agent_id : String
  user_id : String
  input : String
deriving DecidableEq, Repr

/-- The value invoke_agent or invoke_llm hands back to the agent: the
decoded response, or the error dictionary built in the except clause. -/
inductive InvokeReturn
  | result (value : String)
  | errorObj (msg : String)
deriving DecidableEq, Repr

/-- invoke_agent from context.py: builds the payload with
parent_execution_id set to the execution id of the calling context, then
on success appends an agent_invocation event and returns the response,
and on any exception returns an error dictionary without touching the
state.  The issued payload is returned alongside for inspection. -/
def invoke_agent (info : CtxInfo) (s : CtxState) (agent_id input_message : String)
    (outcome : CallOutcome) : InvokeReturn × CtxState × InvokePayload :=
  let payload : InvokePayload :=
    { parent_execution_id := info.execution_id, agent_id := agent_id,
      user_id := info.user_id, input := input_message }
  match outcome with
  | CallOutcome.success v =>
      (InvokeReturn.result v,
       { s with execution_results :=
           s.execution_results ++ [CtxEvent.agent_invocation agent_id input_message v] },
       payload)
  | CallOutcome.failure m =>
      (InvokeReturn.errorObj ("Failed to invoke agent " ++ agent_id ++ ": " ++ m),
       s, payload)

/-- invoke_llm from context.py: the counter is incremented before the
POST is attempted, the llm_call event is appended only when the call
succeeds, and an exception yields an error dictionary. -/
def invoke_llm (s : CtxState) (prompt model : String)
    (outcome : CallOutcome) : InvokeReturn × CtxState :=
  let s1 := { s with llm_calls := s.llm_calls + 1 }
  match outcome with
  | CallOutcome.success v =>
      (InvokeReturn.result v,
       { s1 with execution_results :=
           s1.execution_results ++ [CtxEvent.llm_call prompt model v] })
  | CallOutcome.failure m =>
      (InvokeReturn.errorObj ("Failed to invoke LLM: " ++ m), s1)

/-- Whether an event is a message event. -/
def isMessageEvent : CtxEvent → Bool
  | CtxEvent.message _ _ => true
  | _ => false

/-- Whether an event is an llm_call event. -/
def isLLMEvent : CtxEvent → Bool
  | CtxEvent.llm_call _ _ _ => true
  | _ => false

/-- The stats dictionary inside get_execution_results. -/
structure ExecStats where
  llm_calls : Nat
  duration_seconds : Int
  message_count : Nat
deriving DecidableEq, Repr

/-- The dictionary returned by get_execution_results. -/
structure ExecutionResults where
  execution_id : String
  agent_id : String
  user_id : String
  results : List CtxEvent
  stats : ExecStats
deriving DecidableEq, Repr

/-- get_execution_results from context.py; start and end clock reads are
passed in. -/
def get_execution_results (info : CtxInfo) (s : CtxState)
    (start_time end_time : Int) : ExecutionResults :=
  { execution_id := info.execution_id, agent_id := info.agent_id,
    user_id := info.user_id,
    results := s.execution_results,
    stats := { llm_calls := s.llm_calls,
               duration_seconds := end_time - start_time,
               message_count := (s.execution_results.filter isMessageEvent).length } }

/-- One call an agent makes on its context during a run, together with
the outcome of the outbound HTTP call that the method performs. -/
inductive CtxOp
  | send (content role : String) (relay : CallOutcome)
  | invokeA (agent_id input : String) (outcome : CallOutcome)
  | invokeL (prompt model : String) (outcome : CallOutcome)
deriving DecidableEq, Repr

/-- The state transition of one context call. -/
def stepOp (info : CtxInfo) (s : CtxState) : CtxOp → CtxState
  | CtxOp.send c r relay => send_message s c r relay
  | CtxOp.invokeA a i o => (invoke_agent info s a i o).2.1
  | CtxOp.invokeL p m o => (invoke_llm s p m o).2

/-- Running a sequence of context calls from a given state. -/
def runOps (info : CtxInfo) (s : CtxState) : List CtxOp → CtxState
  | [] => s
  | op :: rest => runOps info (stepOp info s op) rest

/- ---------------------------------------------------------------------
   Embedding of app/executor/container.py
   --------------------------------------------------------------------- -/

/-- The configuration fields of ContainerExecutor that the executor
reads during a run. -/
structure ExecutorConfig where
  use_containers : Bool
  container_timeout : Nat
deriving DecidableEq, Repr

/-- What the docker run of _execute_in_container does: the output
artifact was written and parses, or the container exited without writing
it (captured output and exit code), or subprocess.run raised
TimeoutExpired, or some other exception was raised along the way
(copytree, docker missing, unreadable artifact, and so on). -/
inductive RunOutcome
  | artifact (value : String)
  | noArtifact (stdout stderr : String) (exit_code : Int)
  | timeout
  | raised (msg : String)
deriving DecidableEq, Repr

/-- What the dynamic load and call of _execute_in_process does: the
entry point returned (the context results are then read), or some step
raised. -/
inductive ProcessOutcome
  | success (results : String)
  | raised (msg : String)
deriving DecidableEq, Repr

/-- The environment of one execute_agent call: whether agent.py exists
under the agent path, the fresh temp directory name mkdtemp would pick,
the clock, what the isolated or in-process run does, and whether the
shutil.rmtree of the finally block succeeds (its failure is swallowed
with a warning, so cleanup is best-effort). -/
structure World where
  entryPointExists : Bool
  tempName : String
  now : Nat
  runOutcome : RunOutcome
  procOutcome : ProcessOutcome
  rmtreeOk : Bool
deriving DecidableEq, Repr

/-- The set of ephemeral workspace directories currently on disk. -/
structure FsState where
  dirs : List String
deriving DecidableEq, Repr

/-- mkdtemp: the fresh directory appears. -/
def FsState.create (fs : FsState) (d : String) : FsState :=
  { dirs := d :: fs.dirs }

/-- shutil.rmtree: every occurrence of the directory disappears. -/
def FsState.remove (fs : FsState) (d : String) : FsState :=
  { dirs := fs.dirs.filter (fun x => !(x = d)) }

/-- Whether a directory exists. -/
def FsState.existsDir (fs : FsState) (d : String) : Bool :=
  fs.dirs.contains d

/-- The result dictionary execute_agent hands back, one constructor per
return site of container.py: the parsed output artifact or in-process
results, the missing entry point error, the no-output-artifact error
(crash or missing artifact, with captured output and exit code), the
timeout error, the catch-all container error, and the catch-all
in-process error. -/
inductive ExecResult
  | success (value : String)
  | entryMissing (agent_path execution_id agent_id : String)
  | noOutput (error stdout stderr : String) (exit_code : Int)
      (execution_id agent_id : String)
  | timeout (seconds : Nat) (execution_id agent_id : String)
  | containerError (msg execution_id agent_id : String)
  | processError (msg execution_id agent_id : String)
deriving DecidableEq, Repr

/-- The failure kind of a result, for telling the return sites apart. -/
def ExecResult.kind : ExecResult → String
  | ExecResult.success _ => "success"
  | ExecResult.entryMissing _ _ _ => "entry_point_missing"
  | ExecResult.noOutput _ _ _ _ _ _ => "no_output"
  | ExecResult.timeout _ _ _ => "timeout"
  | ExecResult.containerError _ _ _ => "container_error"
  | ExecResult.processError _ _ _ => "process_error"

/-- _execute_in_container from container.py: mkdtemp creates the
workspace before the try block; the body produces one of the four result
shapes depending on what the docker run did; the finally block attempts
to remove the workspace on every path, but its own try/except swallows
an rmtree failure with a warning, so the directory survives when the
removal fails.  Returns the result and the filesystem state after the
call. -/
def execute_in_container (cfg : ExecutorConfig) (w : World) (fs : FsState)
    (execution_id agent_id : String) : ExecResult × FsState :=
  let fs1 := fs.create w.tempName
  let res := match w.runOutcome with
    | RunOutcome.artifact v => ExecResult.success v
    | RunOutcome.noArtifact out err code =>
        ExecResult.noOutput
          (if err = "" then "Container execution failed with no output" else err)
          out err code execution_id agent_id
    | RunOutcome.timeout =>
        ExecResult.timeout cfg.container_timeout execution_id agent_id
    | RunOutcome.raised m =>
        ExecResult.containerError ("Container execution error: " ++ m)
          execution_id agent_id
  (res, if w.rmtreeOk then fs1.remove w.tempName else fs1)

/-- _execute_in_process from container.py: the try body loads and runs
the agent and reads the context results; any exception becomes the
in-process error dictionary. -/
def execute_in_process (w : World) (execution_id agent_id : String) : ExecResult :=
  match w.procOutcome with
  | ProcessOutcome.success v => ExecResult.success v
  | ProcessOutcome.raised m =>
      ExecResult.processError ("Execution error: " ++ m) execution_id agent_id

/-- The context_data dictionary handed to execute_agent: each key the
function reads may be absent.  The values of env_vars and user_vars are
held as strings. -/
structure ContextData where
  execution_id : Option String
  agent_id : Option String
  user_id : Option String
  messages : Option (List MsgDict)
  env_vars : Option (List (String × String))
  user_vars : Option (List (String × String))
  callback_url : Option String
  api_key : Option String
deriving DecidableEq, Repr

/-- Python dictionary subscript: a missing key raises KeyError. -/
def dictGet {α : Type} (v : Option α) (key : String) : Except PyExc α :=
  match v with
  | some x => Except.ok x
  | none => Except.error (PyExc.keyError key)

/-- ContainerExecutor.execute_agent from container.py, in source order:
the execution_id and agent_id subscripts (which raise on a missing key),
the entry point existence check (an error dictionary, returned before
anything else runs), the Message.from_dict comprehension over the
message list (which raises on a malformed message), the user_id
subscript inside the AgentContext construction, then dispatch on
use_containers.  Both dispatch targets convert every failure of the run
itself into a result dictionary. -/
def execute_agent (cfg : ExecutorConfig) (w : World) (fs : FsState)
    (agent_path : String) (cd : ContextData) :
    Except PyExc (ExecResult × FsState) :=
  match dictGet cd.execution_id ("execution_id") with
  | Except.error e => Except.error e
  | Except.ok execution_id =>
      match dictGet cd.agent_id ("agent_id") with
      | Except.error e => Except.error e
      | Except.ok agent_id =>
          if w.entryPointExists = false then
            Except.ok (ExecResult.entryMissing agent_path execution_id agent_id, fs)
          else
            match mapFromDict w.now (cd.messages.getD []) with
            | Except.error e => Except.error e
            | Except.ok _msgs =>
                match dictGet cd.user_id ("user_id") with
                | Except.error e => Except.error e
                | Except.ok _user_id =>
                    if cfg.use_containers then
                      Except.ok (execute_in_container cfg w fs execution_id agent_id)
                    else
                      Except.ok (execute_in_process w execution_id agent_id, fs)

/- ---------------------------------------------------------------------
   Embedding of app/executor/worker.py
   --------------------------------------------------------------------- -/

/-- The rq job statuses the worker code distinguishes. -/
inductive RqStatus
  | queued
  | started
  | finished
  | failed
  | deferred
  | canceledStatus
deriving DecidableEq, Repr

/-- The string rq reports for each status. -/
def statusStr : RqStatus → String
  | RqStatus.queued => "queued"
  | RqStatus.started => "started"
  | RqStatus.finished => "finished"
  | RqStatus.failed => "failed"
  | RqStatus.deferred => "deferred"
  | RqStatus.canceledStatus => "canceled"

/-- The fields of an rq Job record that the worker reads. -/
structure RqJob where
  status : RqStatus
  result : Option String
  enqueued_at : Option String
  started_at : Option String
  ended_at : Option String
  exc_info : Option String
deriving DecidableEq, Repr

/-- The Redis-backed job store, keyed by execution id. -/
abbrev JobStore : Type := List (String × RqJob)

/-- Job.fetch: the stored record, or none (in which case the real call
raises NoSuchJobError, handled by the callers below). -/
def findJob : JobStore → String → Option RqJob
  | [], _ => none
  | (k, j) :: rest, id => if k = id then some j else findJob rest id

/-- Job.delete: the record disappears from the store. -/
def removeJob : JobStore → String → JobStore
  | [], _ => []
  | (k, j) :: rest, id =>
      if k = id then removeJob rest id else (k, j) :: removeJob rest id

/-- The environment of one execute_agent_job call: whether the agent
path exists, the bundle the validator sees there, and what the container
executor call returns (or raises). -/
structure WorkerWorld where
  agentPathExists : Bool
  bundle : Bundle
  executorReturn : Except PyExc ExecResult
deriving Repr

/-- The dictionary execute_agent_job returns: the executor results, or
the error dictionary built on a validation failure or caught
exception. -/
inductive JobResult
  | ok (r : ExecResult)
  | error (msg : String)
deriving DecidableEq, Repr

/-- AgentExecutorWorker.execute_agent_job from worker.py, paired with a
flag recording whether the container executor was invoked: a missing
agent path raises FileNotFoundError which the except clause converts to
an error dictionary; a failed validation returns an error dictionary
before the executor is touched; otherwise the executor runs and a raised
exception is likewise converted.  The results callback POST is
fire-and-forget and does not affect the returned value. -/
def execute_agent_job (w : WorkerWorld) (execution_id agent_id : String) :
    JobResult × Bool :=
  let _ := execution_id
  if w.agentPathExists = false then
    (JobResult.error ("Error executing agent " ++ agent_id
       ++ ": Agent code not found for agent ID: " ++ agent_id), false)
  else
    let validation := validate_agent_code w.bundle
    if validation.valid = false then
      (JobResult.error ("Agent code validation failed: "
         ++ validation.reason.getD ("")), false)
    else
      match w.executorReturn with
      | Except.ok r => (JobResult.ok r, true)
      | Except.error e =>
          (JobResult.error ("Error executing agent " ++ agent_id ++ ": "
             ++ pyExcMsg e), true)

/-- The dictionary get_execution_status returns: the status record, or
the error dictionary built when Job.fetch raises. -/
inductive StatusResult
  | record (execution_id status : String)
      (enqueued_at started_at ended_at : Option String)
      (result : Option String) (error : Option String)
  | fetchError (msg : String)
deriving DecidableEq, Repr

/-- AgentExecutorWorker.get_execution_status from worker.py: fetch the
job and report its fields, the result only when finished and the
exception info only when failed; an unknown id makes Job.fetch raise,
which the except clause converts into an error dictionary. -/
def get_execution_status (store : JobStore) (id : String) : StatusResult :=
  match findJob store id with
  | none =>
      StatusResult.fetchError ("Failed to fetch job status: No such job: " ++ id)
  | some j =>
      StatusResult.record id (statusStr j.status)
        j.enqueued_at j.started_at j.ended_at
        (if j.status = RqStatus.finished then j.result else none)
        (if j.status = RqStatus.failed then j.exc_info else none)

/-- The dictionary cancel_execution returns. -/
inductive CancelResult
  | cancelled (execution_id : String)
  | alreadyDone (execution_id status : String)
  | fetchError (msg : String)
deriving DecidableEq, Repr

/-- The full outcome of one cancel_execution call: the returned
dictionary, the job store afterwards, and whether a docker kill was
attempted. -/
structure CancelOutcome where
  result : CancelResult
  store : JobStore
  dockerKill : Bool
deriving DecidableEq

/-- AgentExecutorWorker.cancel_execution from worker.py: fetch the job
(an unknown id raises, converted to an error dictionary); when the
status is queued or started, cancel and delete the job, best-effort kill
the container, and report cancelled; otherwise leave the store alone and
report the current status with the already-completed message. -/
def cancel_execution (store : JobStore) (id : String) : CancelOutcome :=
  match findJob store id with
  | none =>
      { result := CancelResult.fetchError
          ("Failed to cancel execution: No such job: " ++ id),
        store := store, dockerKill := false }
  | some j =>
      if j.status = RqStatus.queued ∨ j.status = RqStatus.started then
        { result := CancelResult.cancelled id,
          store := removeJob store id, dockerKill := true }
      else
        { result := CancelResult.alreadyDone id (statusStr j.status),
          store := store, dockerKill := false }

/- ---------------------------------------------------------------------
   Helper lemmas
   --------------------------------------------------------------------- -/

/-- The message events sent by a run of context calls, in call order. -/
def sendsOf : List CtxOp → List CtxEvent
  | [] => []
  | CtxOp.send c r _ :: rest => CtxEvent.message r c :: sendsOf rest
  | CtxOp.invokeA _ _ _ :: rest => sendsOf rest
  | CtxOp.invokeL _ _ _ :: rest => sendsOf rest

/-- Replacing the relay outcome of every send by a fixed success. -/
def stripRelay : CtxOp → CtxOp
  | CtxOp.send c r _ => CtxOp.send c r (CallOutcome.success (""))
  | op => op

/-- Whether a context call is invoke_llm. -/
def isLLMOp : CtxOp → Bool
  | CtxOp.invokeL _ _ _ => true
  | _ => false

/-- Whether a context call is an invoke_llm whose POST succeeded. -/
def isSuccessLLMOp : CtxOp → Bool
  | CtxOp.invokeL _ _ (CallOutcome.success _) => true
  | _ => false

/-- Whether a context call is an invoke_llm whose POST failed. -/
def isFailureLLMOp : CtxOp → Bool
  | CtxOp.invokeL _ _ (CallOutcome.failure _) => true
  | _ => false

/-- Running context calls appends exactly the sent messages to the
message events of the log. -/
theorem runOps_message_filter (info : CtxInfo) (ops : List CtxOp) :
    ∀ s : CtxState,
      (runOps info s ops).execution_results.filter isMessageEvent =
        s.execution_results.filter isMessageEvent ++ sendsOf ops := by
  induction ops with
  | nil => intro s; simp [runOps, sendsOf]
  | cons op rest ih =>
      intro s
      cases op with
      | send c r relay =>
          simp [runOps, stepOp, send_message, sendsOf, ih,
                List.filter_append, isMessageEvent]
      | invokeA a i o =>
          cases o <;>
            simp [runOps, stepOp, invoke_agent, sendsOf, ih,
                  List.filter_append, isMessageEvent]
      | invokeL p m o =>
          cases o <;>
            simp [runOps, stepOp, invoke_llm, sendsOf, ih,
                  List.filter_append, isMessageEvent]

/-- The run of a sequence of context calls does not depend on the relay
outcomes of the send calls. -/
theorem runOps_relay_irrelevant (info : CtxInfo) (ops : List CtxOp) :
    ∀ s : CtxState, runOps info s (ops.map stripRelay) = runOps info s ops := by
  induction ops with
  | nil => intro s; rfl
  | cons op rest ih =>
      intro s
      cases op with
      | send c r relay => simp [runOps, stepOp, stripRelay, send_message, ih]
      | invokeA a i o => simp [runOps, stripRelay, ih]
      | invokeL p m o => simp [runOps, stripRelay, ih]

/-- Running context calls adds one to the generation counter per
invoke_llm call, successful or not. -/
theorem runOps_llm_calls (info : CtxInfo) (ops : List CtxOp) :
    ∀ s : CtxState,
      (runOps info s ops).llm_calls = s.llm_calls + ops.countP isLLMOp := by
  induction ops with
  | nil => intro s; simp [runOps]
  | cons op rest ih =>
      intro s
      cases op with
      | send c r relay =>
          simp [runOps, stepOp, send_message, ih, List.countP_cons, isLLMOp]
      | invokeA a i o =>
          cases o <;>
            simp [runOps, stepOp, invoke_agent, ih, List.countP_cons, isLLMOp]
      | invokeL p m o =>
          cases o <;>
            simp [runOps, stepOp, invoke_llm, ih, List.countP_cons, isLLMOp] <;>
            omega

/-- Running context calls appends one llm_call event per successful
invoke_llm call. -/
theorem runOps_llm_events (info : CtxInfo) (ops : List CtxOp) :
    ∀ s : CtxState,
      ((runOps info s ops).execution_results.filter isLLMEvent).length =
        (s.execution_results.filter isLLMEvent).length
          + ops.countP isSuccessLLMOp := by
  induction ops with
  | nil => intro s; simp [runOps]
  | cons op rest ih =>
      intro s
      cases op with
      | send c r relay =>
          simp [runOps, stepOp, send_message, ih, List.countP_cons,
                isSuccessLLMOp, List.filter_append, isLLMEvent]
      | invokeA a i o =>
          cases o <;>
            simp [runOps, stepOp, invoke_agent, ih, List.countP_cons,
                  isSuccessLLMOp, List.filter_append, isLLMEvent]
      | invokeL p m o =>
          cases o <;>
            simp [runOps, stepOp, invoke_llm, ih, List.countP_cons,
                  isSuccessLLMOp, List.filter_append, isLLMEvent] <;>
            omega

/-- Every invoke_llm call either succeeded or failed. -/
theorem countP_llm_split (ops : List CtxOp) :
    ops.countP isLLMOp = ops.countP isSuccessLLMOp + ops.countP isFailureLLMOp := by
  induction ops with
  | nil => rfl
  | cons op rest ih =>
      cases op with
      | send c r relay =>
          simp [List.countP_cons, isLLMOp, isSuccessLLMOp, isFailureLLMOp, ih]
      | invokeA a i o =>
          simp [List.countP_cons, isLLMOp, isSuccessLLMOp, isFailureLLMOp, ih]
      | invokeL p m o =>
          cases o <;>
            simp [List.countP_cons, isLLMOp, isSuccessLLMOp, isFailureLLMOp, ih] <;>
            omega

/- ---------------------------------------------------------------------
   Claim theorems
   --------------------------------------------------------------------- -/

/-- Claim C9: verify_api_key on the exact key test_key returns success
with user test_user and the scopes execute, submit and admin, for every
required scope and at every clock value (so the format, expiry and scope
checks of the generic branch are bypassed); and verify_api_key on an
empty key returns failure with the key-required error, again for every
scope and clock. -/
theorem verify_api_key_test_key_bypass_and_empty
    (required_scope : String) (current_time : Nat) :
    verify_api_key ("test_key") required_scope current_time =
      (true, VerifyMeta.meta ("test_user") (["execute", "submit", "admin"])
        ("2099-12-31T23:59:59Z")) ∧
    verify_api_key ("") required_scope current_time =
      (false, VerifyMeta.err ("API key is required")) :=
  ⟨rfl, rfl⟩

/-- Claim C7: the payload invoke_agent posts to the invoke endpoint
carries parent_execution_id equal to the execution id of the calling
context, for every outcome of the call; and a transport failure makes
invoke_agent hand back the structured error object, leaving the event
log untouched, rather than raising. -/
theorem invoke_agent_parent_id_and_error_object (info : CtxInfo) (s : CtxState)
    (aid input emsg : String) (outcome : CallOutcome) :
    (invoke_agent info s aid input outcome).2.2.parent_execution_id =
      info.execution_id ∧
    (invoke_agent info s aid input (CallOutcome.failure emsg)).1 =
      InvokeReturn.errorObj ("Failed to invoke agent " ++ aid ++ ": " ++ emsg) ∧
    (invoke_agent info s aid input (CallOutcome.failure emsg)).2.1 = s := by
  refine ⟨?_, rfl, rfl⟩
  cases outcome <;> rfl

/-- Claim C8: get_execution_status is a total function of the job store:
an id with no stored job yields the not-found error dictionary, and a
stored job yields its status record; no input makes the call raise. -/
theorem get_execution_status_never_raises (store : JobStore) (id : String) :
    (findJob store id = none →
      get_execution_status store id =
        StatusResult.fetchError ("Failed to fetch job status: No such job: " ++ id)) ∧
    (∀ j : RqJob, findJob store id = some j →
      get_execution_status store id =
        StatusResult.record id (statusStr j.status)
          j.enqueued_at j.started_at j.ended_at
          (if j.status = RqStatus.finished then j.result else none)
          (if j.status = RqStatus.failed then j.exc_info else none)) := by
  constructor
  · intro h
    unfold get_execution_status
    rw [h]
  · intro j h
    unfold get_execution_status
    rw [h]

/-- Witness for C8 at a concrete unknown id on an empty store. -/
theorem get_execution_status_never_raises_witness :
    get_execution_status ([]) ("missing-id") =
      StatusResult.fetchError
        ("Failed to fetch job status: No such job: " ++ "missing-id") :=
  (get_execution_status_never_raises ([]) ("missing-id")).1 rfl

/-- Claim C6: over any sequence of context calls of one run, the message
events in the results are exactly the send_message calls, in call order;
the message_count stat equals their number; and the relay outcomes of
the sends (including failures) do not change the run state at all. -/
theorem send_message_events_count_and_order (info : CtxInfo) (ops : List CtxOp)
    (t1 t2 : Int) :
    (runOps info initCtxState ops).execution_results.filter isMessageEvent =
      sendsOf ops ∧
    (get_execution_results info (runOps info initCtxState ops) t1 t2).stats.message_count =
      (sendsOf ops).length ∧
    runOps info initCtxState (ops.map stripRelay) = runOps info initCtxState ops := by
  have h := runOps_message_filter info ops initCtxState
  refine ⟨?_, ?_, runOps_relay_irrelevant info ops initCtxState⟩
  · simpa [initCtxState] using h
  · simp only [get_execution_results]
    rw [h]
    simp [initCtxState]

/-- Claim C10: the llm_calls stat counts every invoke_llm call (the
counter is bumped before the POST is attempted), the llm_call events
count only the successful ones, so the stat is at least the event count,
strictly greater exactly when some generation call failed. -/
theorem llm_calls_vs_llm_events_invariant (info : CtxInfo) (ops : List CtxOp)
    (t1 t2 : Int) :
    (get_execution_results info (runOps info initCtxState ops) t1 t2).stats.llm_calls =
      ops.countP isLLMOp ∧
    ((runOps info initCtxState ops).execution_results.filter isLLMEvent).length =
      ops.countP isSuccessLLMOp ∧
    ((runOps info initCtxState ops).execution_results.filter isLLMEvent).length ≤
      (get_execution_results info (runOps info initCtxState ops) t1 t2).stats.llm_calls ∧
    (((runOps info initCtxState ops).execution_results.filter isLLMEvent).length <
        (get_execution_results info (runOps info initCtxState ops) t1 t2).stats.llm_calls ↔
      ∃ op ∈ ops, isFailureLLMOp op = true) := by
  have hs := countP_llm_split ops
  have hc2 : (runOps info initCtxState ops).llm_calls = ops.countP isLLMOp := by
    rw [runOps_llm_calls info ops initCtxState]
    simp [initCtxState]
  have he2 : ((runOps info initCtxState ops).execution_results.filter isLLMEvent).length
      = ops.countP isSuccessLLMOp := by
    rw [runOps_llm_events info ops initCtxState]
    simp [initCtxState]
  refine ⟨by simp [get_execution_results, hc2], he2, ?_, ?_⟩
  · simp only [get_execution_results]
    rw [hc2, he2, hs]
    omega
  · simp only [get_execution_results]
    rw [hc2, he2, hs]
    constructor
    · intro hlt
      exact List.countP_pos_iff.mp (by omega)
    · intro hex
      have hpos : 0 < ops.countP isFailureLLMOp := List.countP_pos_iff.mpr hex
      omega

/-- A message list whose entries all carry role and content maps through
Message.from_dict without an exception. -/
theorem mapFromDict_ok (now : Nat) (ms : List MsgDict)
    (h : ∀ m ∈ ms, m.role.isSome = true ∧ m.content.isSome = true) :
    ∃ l, mapFromDict now ms = Except.ok l := by
  induction ms with
  | nil => exact ⟨[], rfl⟩
  | cons d rest ih =>
      obtain ⟨hr, hc⟩ := h d (by simp)
      obtain ⟨r, hr2⟩ := Option.isSome_iff_exists.mp hr
      obtain ⟨c, hc2⟩ := Option.isSome_iff_exists.mp hc
      obtain ⟨l, hl⟩ := ih (fun m hm => h m (by simp [hm]))
      cases hmd : Message.from_dict d ("generated-uuid") now with
      | error e =>
          rw [Message.from_dict, hr2, hc2] at hmd
          cases hmd
      | ok m =>
          exact ⟨m :: l, by simp only [mapFromDict, hmd, hl]⟩

/-- rmtree leaves no occurrence of the removed directory. -/
theorem existsDir_remove (fs : FsState) (d : String) :
    (fs.remove d).existsDir d = false := by
  unfold FsState.remove FsState.existsDir
  by_contra h
  have h2 : ((fs.dirs.filter (fun x => !(x = d))).contains d) = true := by
    revert h
    cases (fs.dirs.filter (fun x => !(x = d))).contains d <;> simp
  have h3 := List.mem_of_elem_eq_true h2
  have h4 := (List.mem_filter.mp h3).2
  simp at h4

/-- A context_data dictionary with every key absent. -/
def cdEmpty : ContextData :=
  { execution_id := none, agent_id := none, user_id := none, messages := none,
    env_vars := none, user_vars := none, callback_url := none, api_key := none }

/-- A well-formed context_data dictionary. -/
def cdWellFormed : ContextData :=
  { execution_id := some ("e1"), agent_id := some ("a1"), user_id := some ("u1"),
    messages := some ([]), env_vars := some ([]), user_vars := some ([]),
    callback_url := some ("http://api:5000/api/v1"), api_key := some ("k") }

/-- A containerized executor configuration with the default timeout. -/
def cfg0 : ExecutorConfig := { use_containers := true, container_timeout := 300 }

/-- An environment where the entry point exists and the container run
hits its timeout. -/
def world0 : World :=
  { entryPointExists := true, tempName := "agent-e1-tmp", now := 0,
    runOutcome := RunOutcome.timeout, procOutcome := ProcessOutcome.success ("r"),
    rmtreeOk := true }

/-- An empty filesystem. -/
def fs0 : FsState := { dirs := [] }

/-- Counterexample to C2 as stated: on a context_data dictionary missing
the execution_id key, execute_agent raises KeyError out of the call
instead of returning a structured failure result. -/
theorem execute_agent_missing_key_counterexample :
    execute_agent cfg0 world0 fs0 ("agents/demo") cdEmpty =
      Except.error (PyExc.keyError ("execution_id")) := rfl

/-- Claim C2 (amended): for every context_data dictionary that carries
the execution_id, agent_id and user_id keys and whose message entries
all carry role and content, execute_agent returns a result dictionary
and never raises, whatever the agent path and whatever the run does;
in particular a missing entry point is converted into the structured
entry-point failure result. -/
theorem execute_agent_total_on_wellformed (cfg : ExecutorConfig) (w : World)
    (fs : FsState) (agent_path : String) (cd : ContextData)
    (h1 : cd.execution_id.isSome = true) (h2 : cd.agent_id.isSome = true)
    (h3 : cd.user_id.isSome = true)
    (h4 : ∀ m ∈ cd.messages.getD [], m.role.isSome = true ∧ m.content.isSome = true) :
    (∃ r fs2, execute_agent cfg w fs agent_path cd = Except.ok (r, fs2)) ∧
    (w.entryPointExists = false →
      ∃ eid aid, execute_agent cfg w fs agent_path cd =
        Except.ok (ExecResult.entryMissing agent_path eid aid, fs)) := by
  obtain ⟨eid, he⟩ := Option.isSome_iff_exists.mp h1
  obtain ⟨aid, ha⟩ := Option.isSome_iff_exists.mp h2
  obtain ⟨uid, hu⟩ := Option.isSome_iff_exists.mp h3
  obtain ⟨ml, hm⟩ := mapFromDict_ok w.now (cd.messages.getD []) h4
  constructor
  · unfold execute_agent
    simp only [he, ha, hu, hm, dictGet]
    cases hep : w.entryPointExists with
    | false =>
        refine ⟨ExecResult.entryMissing agent_path eid aid, fs, ?_⟩
        simp
    | true =>
        cases hub : cfg.use_containers with
        | false =>
            refine ⟨execute_in_process w eid aid, fs, ?_⟩
            simp
        | true =>
            refine ⟨(execute_in_container cfg w fs eid aid).1,
                    (execute_in_container cfg w fs eid aid).2, ?_⟩
            simp
  · intro hep
    unfold execute_agent
    simp only [he, ha, dictGet, hep]
    refine ⟨eid, aid, ?_⟩
    simp

/-- Witness for C2 at a concrete well-formed request. -/
theorem execute_agent_total_on_wellformed_witness :
    (∃ r fs2, execute_agent cfg0 world0 fs0 ("agents/demo") cdWellFormed =
      Except.ok (r, fs2)) ∧
    (world0.entryPointExists = false →
      ∃ eid aid, execute_agent cfg0 world0 fs0 ("agents/demo") cdWellFormed =
        Except.ok (ExecResult.entryMissing ("agents/demo") eid aid, fs0)) :=
  execute_agent_total_on_wellformed cfg0 world0 fs0 ("agents/demo") cdWellFormed
    rfl rfl rfl (by simp [cdWellFormed])

/-- An environment like world0, except that the rmtree of the finally
block itself fails (for instance on undeletable container-written
files); container.py swallows that failure with a warning. -/
def worldLeak : World :=
  { entryPointExists := true, tempName := "agent-e1-tmp", now := 0,
    runOutcome := RunOutcome.timeout, procOutcome := ProcessOutcome.success ("r"),
    rmtreeOk := false }

/-- Counterexample to C5 as stated: workspace cleanup is only
best-effort.  On a timed-out run whose rmtree fails, execute_agent
still returns the timeout result, but the ephemeral workspace still
exists after the call returns, so the workspace is not destroyed on
every exit path. -/
theorem execute_agent_workspace_leak_counterexample :
    execute_agent cfg0 worldLeak fs0 ("agents/demo") cdWellFormed =
      Except.ok (ExecResult.timeout 300 ("e1") ("a1"),
        FsState.create fs0 ("agent-e1-tmp")) ∧
    (FsState.create fs0 ("agent-e1-tmp")).existsDir ("agent-e1-tmp") = true :=
  ⟨rfl, rfl⟩

/-- Claim C5 (amended): on a containerized run (entry point present,
well-formed request) every exit path of execute_agent attempts removal
of the ephemeral workspace, and the workspace no longer exists
afterwards whenever that rmtree succeeds (a removal failure is swallowed
and leaves the directory behind, so cleanup is best-effort); when the
run hits the configured timeout the returned result is the dedicated
timeout failure, a kind distinct from the no-output (crash or missing
artifact) and missing-entry-point kinds. -/
theorem execute_agent_timeout_kind_and_cleanup (cfg : ExecutorConfig) (w : World)
    (fs : FsState) (agent_path : String) (cd : ContextData) (eid aid : String)
    (h1 : cd.execution_id = some eid) (h2 : cd.agent_id = some aid)
    (h3 : cd.user_id.isSome = true)
    (h4 : ∀ m ∈ cd.messages.getD [], m.role.isSome = true ∧ m.content.isSome = true)
    (h5 : cfg.use_containers = true) (h6 : w.entryPointExists = true) :
    (w.rmtreeOk = true →
       ∃ r fs2, execute_agent cfg w fs agent_path cd = Except.ok (r, fs2) ∧
         fs2.existsDir w.tempName = false) ∧
    (w.runOutcome = RunOutcome.timeout →
       ∃ fs2, execute_agent cfg w fs agent_path cd =
         Except.ok (ExecResult.timeout cfg.container_timeout eid aid, fs2) ∧
         (ExecResult.timeout cfg.container_timeout eid aid).kind = "timeout" ∧
         (∀ r2 : ExecResult,
           (r2.kind = "no_output" ∨ r2.kind = "entry_point_missing") →
           r2 ≠ ExecResult.timeout cfg.container_timeout eid aid) ∧
         (w.rmtreeOk = true → fs2.existsDir w.tempName = false)) := by
  obtain ⟨uid, hu⟩ := Option.isSome_iff_exists.mp h3
  obtain ⟨ml, hm⟩ := mapFromDict_ok w.now (cd.messages.getD []) h4
  have hrun : execute_agent cfg w fs agent_path cd =
      Except.ok (execute_in_container cfg w fs eid aid) := by
    unfold execute_agent
    simp only [h1, h2, hu, hm, dictGet, h5, h6]
    simp
  constructor
  · intro hrm
    refine ⟨(execute_in_container cfg w fs eid aid).1,
            (fs.create w.tempName).remove w.tempName, ?_, existsDir_remove _ _⟩
    rw [hrun]
    simp [execute_in_container, hrm]
  · intro hto
    refine ⟨(execute_in_container cfg w fs eid aid).2, ?_, rfl, ?_, ?_⟩
    · rw [hrun]
      simp [execute_in_container, hto]
    · intro r2 hk
      cases r2 <;> simp [ExecResult.kind] at hk ⊢
    · intro hrm
      have hsnd : (execute_in_container cfg w fs eid aid).2 =
          (fs.create w.tempName).remove w.tempName := by
        simp [execute_in_container, hrm]
      rw [hsnd]
      exact existsDir_remove _ _

/-- Witness for C5 at a concrete containerized run that times out and
whose rmtree succeeds. -/
theorem execute_agent_timeout_kind_and_cleanup_witness :
    (∃ r fs2, execute_agent cfg0 world0 fs0 ("agents/demo") cdWellFormed =
       Except.ok (r, fs2) ∧ fs2.existsDir world0.tempName = false) ∧
    (∃ fs2, execute_agent cfg0 world0 fs0 ("agents/demo") cdWellFormed =
       Except.ok (ExecResult.timeout cfg0.container_timeout ("e1") ("a1"), fs2) ∧
       (ExecResult.timeout cfg0.container_timeout ("e1") ("a1")).kind = "timeout" ∧
       (∀ r2 : ExecResult,
         (r2.kind = "no_output" ∨ r2.kind = "entry_point_missing") →
         r2 ≠ ExecResult.timeout cfg0.container_timeout ("e1") ("a1")) ∧
       (world0.rmtreeOk = true → fs2.existsDir world0.tempName = false)) :=
  ⟨(execute_agent_timeout_kind_and_cleanup cfg0 world0 fs0 ("agents/demo")
      cdWellFormed ("e1") ("a1") rfl rfl rfl (by simp [cdWellFormed]) rfl rfl).1 rfl,
   (execute_agent_timeout_kind_and_cleanup cfg0 world0 fs0 ("agents/demo")
      cdWellFormed ("e1") ("a1") rfl rfl rfl (by simp [cdWellFormed]) rfl rfl).2 rfl⟩

/-- Claim C3: when the validator rejects the bundle stored at the agent
path, execute_agent_job returns an error dictionary and the container
executor is never invoked in that job run (also when the agent path is
missing, so validation never even passed). -/
theorem execute_agent_job_blocks_unvalidated (w : WorkerWorld) (eid aid : String)
    (h : (validate_agent_code w.bundle).valid = false) :
    (execute_agent_job w eid aid).2 = false ∧
    ∃ msg, (execute_agent_job w eid aid).1 = JobResult.error msg := by
  unfold execute_agent_job
  cases hp : w.agentPathExists with
  | false =>
      refine ⟨by simp, ?_⟩
      exact ⟨"Error executing agent " ++ aid
        ++ ": Agent code not found for agent ID: " ++ aid, by simp⟩
  | true =>
      refine ⟨by simp [h], ?_⟩
      exact ⟨"Agent code validation failed: "
        ++ (validate_agent_code w.bundle).reason.getD (""), by simp [h]⟩

/-- A bundle with a denylisted import, used as concrete input. -/
def deniedBundle : Bundle :=
  { pyFiles := [("agent.py", ParseResult.ok ([AstNode.importStmt 1 (["subprocess"])]))],
    requirements := none }

/-- A worker environment whose stored bundle is the denied one. -/
def workerDenied : WorkerWorld :=
  { agentPathExists := true, bundle := deniedBundle,
    executorReturn := Except.ok (ExecResult.success ("r")) }

/-- Witness for C3 at a concrete invalid bundle. -/
theorem execute_agent_job_blocks_unvalidated_witness :
    (validate_agent_code deniedBundle).valid = false ∧
    (execute_agent_job workerDenied ("e1") ("a1")).2 = false ∧
    ∃ msg, (execute_agent_job workerDenied ("e1") ("a1")).1 = JobResult.error msg :=
  ⟨by decide,
   (execute_agent_job_blocks_unvalidated workerDenied ("e1") ("a1") (by decide)).1,
   (execute_agent_job_blocks_unvalidated workerDenied ("e1") ("a1") (by decide)).2⟩

/-- After Job.delete, Job.fetch no longer finds the job. -/
theorem findJob_removeJob (store : JobStore) (id : String) :
    findJob (removeJob store id) id = none := by
  induction store with
  | nil => rfl
  | cons p rest ih =>
      obtain ⟨k, j⟩ := p
      by_cases hk : k = id
      · simp [removeJob, hk, ih]
      · simp [removeJob, findJob, hk, ih]

/-- A queued job record. -/
def queuedJob : RqJob :=
  { status := RqStatus.queued, result := none, enqueued_at := none,
    started_at := none, ended_at := none, exc_info := none }

/-- A finished job record. -/
def finishedJob : RqJob :=
  { status := RqStatus.finished, result := some ("ok"),
    enqueued_at := some ("t0"), started_at := some ("t1"),
    ended_at := some ("t2"), exc_info := none }

/-- A store holding one queued job. -/
def storeQueued : JobStore := [("e1", queuedJob)]

/-- A store holding one finished job. -/
def storeFinished : JobStore := [("e2", finishedJob)]

/-- Counterexample to C4 as stated: cancelling a queued job deletes its
record, so calling cancel_execution again on the same id returns the
not-found error dictionary instead of the same outcome; the call is not
idempotent for every execution id. -/
theorem cancel_execution_not_idempotent_counterexample :
    (cancel_execution storeQueued ("e1")).result = CancelResult.cancelled ("e1") ∧
    (cancel_execution (cancel_execution storeQueued ("e1")).store ("e1")).result =
      CancelResult.fetchError ("Failed to cancel execution: No such job: e1") ∧
    (cancel_execution (cancel_execution storeQueued ("e1")).store ("e1")).result ≠
      (cancel_execution storeQueued ("e1")).result := by
  refine ⟨rfl, rfl, ?_⟩
  decide

/-- Claim C4 (amended): for a job already in a terminal state,
cancel_execution is a no-op returning the existing status unchanged and
calling it again gives the same outcome; for a queued or started job it
reports cancelled, attempts the container kill, and deletes the job
record, so the job is gone from the store (and a repeated cancel then
returns an error, not the same outcome). -/
theorem cancel_execution_terminal_noop_queued_removed (store : JobStore)
    (id : String) (j : RqJob) (hj : findJob store id = some j) :
    (¬(j.status = RqStatus.queued ∨ j.status = RqStatus.started) →
      cancel_execution store id =
        { result := CancelResult.alreadyDone id (statusStr j.status),
          store := store, dockerKill := false } ∧
      cancel_execution (cancel_execution store id).store id =
        cancel_execution store id) ∧
    ((j.status = RqStatus.queued ∨ j.status = RqStatus.started) →
      (cancel_execution store id).result = CancelResult.cancelled id ∧
      (cancel_execution store id).dockerKill = true ∧
      findJob (cancel_execution store id).store id = none) := by
  have h1 : cancel_execution store id =
      (if j.status = RqStatus.queued ∨ j.status = RqStatus.started then
        { result := CancelResult.cancelled id,
          store := removeJob store id, dockerKill := true }
       else
        { result := CancelResult.alreadyDone id (statusStr j.status),
          store := store, dockerKill := false }) := by
    unfold cancel_execution
    rw [hj]
  constructor
  · intro hterm
    have h2 : cancel_execution store id =
        { result := CancelResult.alreadyDone id (statusStr j.status),
          store := store, dockerKill := false } := by
      rw [h1, if_neg hterm]
    refine ⟨h2, ?_⟩
    have h3 : (cancel_execution store id).store = store := by rw [h2]
    rw [h3]
  · intro hqs
    have h2 : cancel_execution store id =
        { result := CancelResult.cancelled id,
          store := removeJob store id, dockerKill := true } := by
      rw [h1, if_pos hqs]
    refine ⟨by rw [h2], by rw [h2], ?_⟩
    rw [h2]
    exact findJob_removeJob store id

/-- Witness for C4 at a concrete finished job and a concrete queued job. -/
theorem cancel_execution_terminal_noop_queued_removed_witness :
    (cancel_execution storeFinished ("e2") =
      { result := CancelResult.alreadyDone ("e2") ("finished"),
        store := storeFinished, dockerKill := false } ∧
     cancel_execution (cancel_execution storeFinished ("e2")).store ("e2") =
       cancel_execution storeFinished ("e2")) ∧
    ((cancel_execution storeQueued ("e1")).result = CancelResult.cancelled ("e1") ∧
     (cancel_execution storeQueued ("e1")).dockerKill = true ∧
     findJob (cancel_execution storeQueued ("e1")).store ("e1") = none) :=
  ⟨(cancel_execution_terminal_noop_queued_removed storeFinished ("e2")
      finishedJob rfl).1 (by decide),
   (cancel_execution_terminal_noop_queued_removed storeQueued ("e1")
      queuedJob rfl).2 (by decide)⟩

/- ---------------------------------------------------------------------
   Lemmas for the validator claim
   --------------------------------------------------------------------- -/

